import Mathlib

/-!
Verification of the dialogue core of the restaurant voice assistant:
session state (`UserData`, app/models/restaurant.py), the transcript
truncation/merge algorithm (`BaseRestaurantAgent._truncate_chat_ctx` and the
merge step of `on_enter`, assistant.py), phone normalization
(shared_tools.py `update_customer_phone`, error_handlers.py
`SipCallHandler._normalize_phone`), and the tool-invocation layer of the
order/reservation/confirmation agents (assistant.py).

Python floats only ever hold exact small decimals here, so money is modelled
as `ℚ`; Python exceptions escaping a function are modelled as `none` of an
`Option` result; Python truthiness of strings and lists is modelled as
non-emptiness.
-/

/-- Transcript entry (livekit chat-context item as used by assistant.py):
an identity, a type tag that in the source is one of the strings
"message", "function_call", "function_call_output", a role (only meaningful
for messages), and content. -/
structure ChatItem where
  id : String
  itemType : String
  role : String
  content : String
deriving DecidableEq, Repr

/-- The filter `_valid_item` inside `_truncate_chat_ctx` (assistant.py
lines 94-99): drop system messages unless `keep_system_message`, drop
function_call / function_call_output entries unless `keep_function_call`. -/
def valid_item (keep_system_message keep_function_call : Bool) (it : ChatItem) : Bool :=
  if !keep_system_message && it.itemType == "message" && it.role == "system" then false
  else if !keep_function_call && (it.itemType == "function_call" || it.itemType == "function_call_output") then false
  else true

/-- Tool-call / tool-result test used by the orphan-removal loop
(assistant.py line 110): `item.type in ["function_call", "function_call_output"]`. -/
def is_tool_artifact (it : ChatItem) : Bool :=
  it.itemType == "function_call" || it.itemType == "function_call_output"

/-- The backward scan of `_truncate_chat_ctx` (assistant.py lines 101-106):
walk the (already reversed) item list, appending entries that pass the
filter, stopping as soon as the accumulator holds `keep_last_n_messages`
entries.  Mirrors the Python loop exactly, including the post-append break
test. -/
def truncate_scan (keep_system_message keep_function_call : Bool)
    (keep_last_n_messages : Nat) : List ChatItem → List ChatItem → List ChatItem
  | [], acc => acc
  | x :: xs, acc =>
    let acc2 := if valid_item keep_system_message keep_function_call x then acc ++ [x] else acc
    if keep_last_n_messages ≤ acc2.length then acc2
    else truncate_scan keep_system_message keep_function_call keep_last_n_messages xs acc2

/-- `BaseRestaurantAgent._truncate_chat_ctx` (assistant.py lines 86-113):
scan from the most recent entry backward keeping the last
`keep_last_n_messages` entries that pass the filter, restore chronological
order, then pop leading function_call / function_call_output entries. -/
def truncate_chat_ctx (items : List ChatItem) (keep_last_n_messages : Nat)
    (keep_system_message keep_function_call : Bool) : List ChatItem :=
  ((truncate_scan keep_system_message keep_function_call keep_last_n_messages
      items.reverse []).reverse).dropWhile is_tool_artifact

/-- The context-merge step of `BaseRestaurantAgent.on_enter` (assistant.py
lines 70-72): collect the ids already present in the target, filter the
source down to entries whose id is absent, extend the target with them. -/
def merge_ctx (target source : List ChatItem) : List ChatItem :=
  let existing_ids := target.map ChatItem.id
  target ++ source.filter (fun it => !(existing_ids.contains it.id))

/-- A draft-order line as stored by `OrderAgent.add_item` (assistant.py
line 267): the dict `{"item": item, "quantity": quantity}` — it carries no
price field. -/
structure OrderLine where
  item : String
  quantity : Int
deriving DecidableEq, Repr

/-- The session-state fields of `UserData`
(app/models/restaurant.py lines 122-163) that the dialogue tools read or
write.  Defaults are the dataclass defaults. -/
structure UserData where
  customer_name : String := ""
  customer_phone : String := ""
  customer_email : String := ""
  current_order : List OrderLine := []
  order_total : ℚ := 0
  special_instructions : String := ""
  reservation_date : String := ""
  reservation_time : String := ""
  party_size : Int := 0
  payment_method : String := "cash"
deriving DecidableEq, Repr

/-- A fresh `UserData()` with all dataclass defaults. -/
def initialUserData : UserData := {}

/-- Keep only the decimal-digit characters of a string:
`''.join(filter(str.isdigit, phone))` (shared_tools.py line 27,
error_handlers.py line 296). -/
def clean_digits (phone : String) : String :=
  String.mk (phone.data.filter Char.isDigit)

/-- The phone value stored by the shared tool `update_customer_phone`
(shared_tools.py lines 26-33): strip non-digits; 10 digits become
`"+1"+digits`; 11 digits starting with `1` become `"+"+digits`; otherwise
the stripped digit string itself is stored. -/
def update_customer_phone (phone : String) : String :=
  let clean := clean_digits phone
  if clean.length = 10 then "+1" ++ clean
  else if clean.length = 11 ∧ clean.startsWith "1" then "+" ++ clean
  else clean

/-- `SipCallHandler._normalize_phone` (error_handlers.py lines 290-304):
empty input maps to "unknown"; 10 digits become `"+1"+digits`; 11 digits
starting with `1` become `"+"+digits`; otherwise the original input is
returned unchanged. -/
def normalize_phone (phone : String) : String :=
  if phone = "" then "unknown"
  else
    let clean := clean_digits phone
    if clean.length = 10 then "+1" ++ clean
    else if clean.length = 11 ∧ clean.startsWith "1" then "+" ++ clean
    else phone

/-- Phone normalization exactly as the spec words it (spec.md section 4.1):
strip all non-digit characters; a 10-digit result becomes `"+1"+digits`; an
11-digit result beginning with `1` becomes `"+"+digits`; any other shape is
stored unchanged (i.e. the original input). -/
def spec_phone_norm (phone : String) : String :=
  let digits := clean_digits phone
  if digits.length = 10 then "+1" ++ digits
  else if digits.length = 11 ∧ digits.startsWith "1" then "+" ++ digits
  else phone

/-- The amended normalization rule for the set-phone tool: identical to the
spec rule on the 10- and 11-digit shapes, but in any other case the stored
value is the stripped digit string, not the original input. -/
def spec_phone_norm_amended (phone : String) : String :=
  let digits := clean_digits phone
  if digits.length = 10 then "+1" ++ digits
  else if digits.length = 11 ∧ digits.startsWith "1" then "+" ++ digits
  else digits

/-- The readiness guard of `OrderAgent._handoff_if_done` and the hard
completeness guard of `ConfirmationAgent.confirm_order` (assistant.py
lines 287, 400-401): Python truthiness of
`customer_name and customer_phone and current_order`. -/
def order_guard (s : UserData) : Bool :=
  s.customer_name != "" && s.customer_phone != "" && !s.current_order.isEmpty

/-- The readiness guard of `ReservationAgent._handoff_if_done` and the hard
completeness guard of `ConfirmationAgent.confirm_reservation`
(assistant.py lines 313-320, 444-447). -/
def reservation_guard (s : UserData) : Bool :=
  s.customer_name != "" && s.customer_phone != "" &&
  s.reservation_date != "" && s.reservation_time != "" &&
  decide (s.party_size > 0)

/-- `OrderAgent._handoff_if_done` (assistant.py lines 285-289). -/
def order_ready_hint (s : UserData) : Option String :=
  if order_guard s then some "You may now confirm the order." else none

/-- `ReservationAgent._handoff_if_done` (assistant.py lines 313-322). -/
def reservation_ready_hint (s : UserData) : Option String :=
  if reservation_guard s then some "You can now use `confirm_reservation` to save this."
  else none

/-- `OrderAgent.add_item` (assistant.py lines 265-268): append the line to
`current_order` and return the readiness hint (or None).  No other field of
the session state is touched. -/
def add_item (s : UserData) (item : String) (quantity : Int) : UserData × Option String :=
  let s2 := { s with current_order := s.current_order ++ [⟨item, quantity⟩] }
  (s2, order_ready_hint s2)

/-- `OrderAgent.set_payment_method` (assistant.py lines 270-273). -/
def set_payment_method (s : UserData) (method : String) : UserData × Option String :=
  let s2 := { s with payment_method := method }
  (s2, order_ready_hint s2)

/-- `ReservationAgent.set_reservation_details` (assistant.py
lines 301-306): store date, time and party size unconditionally, then
return the readiness hint (or None). -/
def set_reservation_details (s : UserData) (date tm : String) (party_size : Int) :
    UserData × Option String :=
  let s2 := { s with reservation_date := date, reservation_time := tm,
                     party_size := party_size }
  (s2, reservation_ready_hint s2)

/-- The draft-order mutations of the order-taking role. -/
inductive DraftMutation
  | addItem (item : String) (quantity : Int)
  | setPaymentMethod (method : String)
deriving DecidableEq, Repr

/-- State effect of one draft-order mutation. -/
def applyDraftMutation (s : UserData) : DraftMutation → UserData
  | .addItem item quantity => (add_item s item quantity).1
  | .setPaymentMethod m => (set_payment_method s m).1

/-- The session state after a sequence of draft-order mutations applied to
a fresh session. -/
def runDraftMutations (ms : List DraftMutation) : UserData :=
  ms.foldl applyDraftMutation initialUserData

/-- The unit price `confirm_order` assigns to every line item at commit time
(assistant.py line 414): the literal `0.0`; no catalog lookup happens. -/
def commit_unit_price : ℚ := 0

/-- Sum of unit_price × quantity over the draft order lines, with each
line priced as the code prices it at commit time. -/
def draft_order_total (order : List OrderLine) : ℚ :=
  (order.map (fun l => commit_unit_price * l.quantity)).sum

/-- `OrderItem` (app/models/restaurant.py lines 43-58).  The dataclass has
four required fields plus `modifications` (defaulting to None, replaced by
[] in `__post_init__`). -/
structure OrderItem where
  menu_item_id : String
  menu_item_name : String
  quantity : Int
  unit_price : ℚ
  modifications : List String
deriving DecidableEq, Repr

/-- The keyword arguments a caller passes to the `OrderItem` dataclass
constructor; `none` means the argument was not supplied. -/
structure OrderItemKwargs where
  menu_item_id : Option String := none
  menu_item_name : Option String := none
  quantity : Option Int := none
  unit_price : Option ℚ := none
  modifications : Option (List String) := none
deriving DecidableEq, Repr

/-- The `OrderItem` dataclass `__init__`: every field without a default must
be supplied or the call raises TypeError (modelled as `none`);
`modifications=None` is turned into `[]` by `__post_init__`. -/
def orderItemInit (kw : OrderItemKwargs) : Option OrderItem :=
  match kw.menu_item_id, kw.menu_item_name, kw.quantity, kw.unit_price with
  | some i, some n, some q, some p => some ⟨i, n, q, p, kw.modifications.getD []⟩
  | _, _, _, _ => none

/-- The keyword arguments `ConfirmationAgent.confirm_order` passes for one
draft line (assistant.py lines 411-416): `menu_item_id=item_data.get('item',
'')`, `quantity=item_data.get('quantity', 1)`, `unit_price=0.0`,
`modifications=item_data.get('modifications', [])` — and no
`menu_item_name`. -/
def confirm_order_item_kwargs (line : OrderLine) : OrderItemKwargs :=
  { menu_item_id := some line.item, quantity := some line.quantity,
    unit_price := some commit_unit_price, modifications := some [] }

/-- The item-conversion loop of `confirm_order` (assistant.py
lines 409-417); `none` when any constructor call raises. -/
def confirm_order_items (order : List OrderLine) : Option (List OrderItem) :=
  order.mapM (fun line => orderItemInit (confirm_order_item_kwargs line))

/-- The closed set of dialogue roles (assistant.py agent classes). -/
inductive RoleTag
  | intentRouter
  | orderTaking
  | reservationTaking
  | confirmation
  | endCall
deriving DecidableEq, Repr

/-- The observable outcome of one confirmation-tool invocation: the reply
string surfaced to the model, the session state afterwards, whether the
store's commit operation was invoked, and the handoff target (the Python
tools of ConfirmationAgent only ever return strings, never an agent, so
`next` is always `none` for them). -/
structure ToolOutcome where
  reply : String
  state : UserData
  commitAttempted : Bool
  next : Option RoleTag
deriving DecidableEq, Repr

/-- The orchestrator's treatment of a tool outcome: a reply leaves the
active role unchanged, a returned agent becomes the active role. -/
def apply_outcome (active : RoleTag) (o : ToolOutcome) : RoleTag :=
  o.next.getD active

/-- Reply strings of `ConfirmationAgent` (assistant.py). -/
def missing_order_info_msg : String :=
  "I just need to get your name and phone number to complete this order."

/-- The success reply of `confirm_order` (assistant.py line 434). -/
def order_success_msg : String :=
  "Perfect! Your order is all set. We\x27ll have it ready for you soon!"

/-- The apology of the `except` branches of `confirm_order` and
`confirm_reservation` (assistant.py lines 438, 455). -/
def commit_failure_apology_msg : String :=
  "Oops, something went wrong on our end. Let me try that again for you."

/-- The refusal of `confirm_reservation` when details are missing
(assistant.py line 448). -/
def missing_reservation_info_msg : String :=
  "I just need a few more details to get your table reserved."

/-- The success reply of `confirm_reservation` (assistant.py line 451). -/
def reservation_success_msg : String :=
  "Great! Your table is reserved. We\x27re looking forward to seeing you!"

/-- `ConfirmationAgent.confirm_order` (assistant.py lines 396-438).
`store_commit_ok` is the boolean `FirebaseManager.create_order` would
return; `create_order` (manager.py lines 144-161) catches every exception
internally and reports failure via that boolean, which `confirm_order`
never reads.  When the completeness guard passes, the `OrderItem`
constructor calls omit the required `menu_item_name` argument, so the try
body raises TypeError before the store is reached and the except branch
returns the apology. -/
def confirm_order (s : UserData) (store_commit_ok : Bool) : ToolOutcome :=
  if order_guard s then
    match confirm_order_items s.current_order with
    | none =>
        { reply := commit_failure_apology_msg, state := s,
          commitAttempted := false, next := none }
    | some _items =>
        { reply := order_success_msg, state := s,
          commitAttempted := true, next := none }
  else
    { reply := missing_order_info_msg, state := s,
      commitAttempted := false, next := none }

/-- `ConfirmationAgent.confirm_reservation` (assistant.py lines 440-455).
`store_commit_ok` is the boolean `FirebaseManager.save_reservation`
(manager.py lines 255-276) returns; `save_reservation` catches every
exception internally and reports failure via that boolean, which
`confirm_reservation` never reads: the success reply is returned no matter
what the store reported. -/
def confirm_reservation (s : UserData) (store_commit_ok : Bool) : ToolOutcome :=
  if reservation_guard s then
    { reply := reservation_success_msg, state := s,
      commitAttempted := true, next := none }
  else
    { reply := missing_reservation_info_msg, state := s,
      commitAttempted := false, next := none }

/-- No two consecutive underscores. -/
def no_double_underscore : List Char → Bool
  | [] => true
  | [_] => true
  | a :: b :: rest => !(a == '_' && b == '_') && no_double_underscore (b :: rest)

/-- The digit-with-underscores core accepted by Python `int()` after sign
and whitespace handling: non-empty, every character a digit or `_`, first
and last characters digits, no `__`. -/
def underscore_digits_ok (cs : List Char) : Bool :=
  !cs.isEmpty
  && cs.all (fun c => c.isDigit || c == '_')
  && cs.head?.any Char.isDigit
  && cs.getLast?.any Char.isDigit
  && no_double_underscore cs

/-- Numeric value of a digit list (underscores already removed). -/
def digits_to_nat (cs : List Char) : Nat :=
  cs.foldl (fun a c => 10 * a + (c.toNat - 48)) 0

/-- Model of Python `int(str)` on ASCII input: strip surrounding
whitespace, allow one optional sign, then digits with optional single
underscores between digits; every other string raises ValueError
(modelled as `none`). -/
def py_int (s : String) : Option Int :=
  let t := ((s.data.dropWhile Char.isWhitespace).reverse.dropWhile Char.isWhitespace).reverse
  let signed : Int × List Char :=
    match t with
    | '+' :: r => (1, r)
    | '-' :: r => (-1, r)
    | r => (1, r)
  if underscore_digits_ok signed.2 then
    some (signed.1 * (digits_to_nat (signed.2.filter (fun c => c != '_')) : Int))
  else none

/-- Reply of `request_correction` on a successful change (assistant.py
line 475). -/
def correction_ok_msg (v : String) : String :=
  "Got it, changed to " ++ v ++ ". Does everything look right now?"

/-- Reply of `request_correction` for a field outside the allowlist
(assistant.py line 477). -/
def correction_menu_msg : String :=
  "Just let me know what you\x27d like to change - your name, phone, date, time, or party size."

/-- `ConfirmationAgent.request_correction` (assistant.py lines 457-477):
fields in the allowlist are stored (party_size through `int(new_value)`,
whose ValueError escapes the tool, modelled as `none`); any other field
name changes nothing and returns the menu advisory. -/
def request_correction (s : UserData) (fld new_value : String) :
    Option (UserData × String) :=
  if fld = "name" then some ({ s with customer_name := new_value }, correction_ok_msg new_value)
  else if fld = "phone" then some ({ s with customer_phone := new_value }, correction_ok_msg new_value)
  else if fld = "email" then some ({ s with customer_email := new_value }, correction_ok_msg new_value)
  else if fld = "date" then some ({ s with reservation_date := new_value }, correction_ok_msg new_value)
  else if fld = "time" then some ({ s with reservation_time := new_value }, correction_ok_msg new_value)
  else if fld = "party_size" then
    match py_int new_value with
    | some n => some ({ s with party_size := n }, correction_ok_msg new_value)
    | none => none
  else some (s, correction_menu_msg)

/-- No draft-order mutation writes `order_total`. -/
theorem applyDraftMutation_order_total (s : UserData) (m : DraftMutation) :
    (applyDraftMutation s m).order_total = s.order_total := by
  cases m <;> rfl

/-- `order_total` after any mutation sequence is whatever it started as. -/
theorem foldl_draftMutations_order_total (ms : List DraftMutation) (s : UserData) :
    (ms.foldl applyDraftMutation s).order_total = s.order_total := by
  induction ms generalizing s with
  | nil => rfl
  | cons m ms ih => rw [List.foldl_cons, ih, applyDraftMutation_order_total]

/-- With every line priced at the commit-time unit price 0, the draft total
is 0. -/
theorem draft_order_total_eq_zero (order : List OrderLine) :
    draft_order_total order = 0 := by
  induction order with
  | nil => rfl
  | cons l rest ih =>
    simp only [draft_order_total, List.map_cons, List.sum_cons, commit_unit_price,
      zero_mul, zero_add] at *
    exact ih

/-- C1: after every sequence of draft-order mutations (add-line-item,
set-payment-method) applied to a fresh session, `order_total` equals the
sum of unit_price × quantity over the draft order's line items, and no
mutation ever writes `order_total` directly.  (In the code this holds
degenerately: drafts carry no prices, commit assigns unit price 0, and
`order_total` is never recomputed — both sides are identically 0.) -/
theorem C1_order_total_invariant (ms : List DraftMutation) :
    (runDraftMutations ms).order_total =
      draft_order_total (runDraftMutations ms).current_order := by
  rw [draft_order_total_eq_zero, runDraftMutations, foldl_draftMutations_order_total]
  rfl

/-- C2 counterexample: on the input "123-45" the set-phone tool stores the
stripped digit string "12345", not the input unchanged as the claim
("any other shape of input is stored unchanged") requires. -/
theorem C2_counterexample :
    update_customer_phone "123-45" = "12345" ∧
    spec_phone_norm "123-45" = "123-45" ∧
    update_customer_phone "123-45" ≠ spec_phone_norm "123-45" := by
  refine ⟨by decide, by decide, by decide⟩

/-- C2 amended: the 10-digit and 11-digit shapes are normalized exactly as
claimed, but in any other case the set-phone tool stores the stripped digit
string; only the SIP-side `_normalize_phone` helper returns a non-empty
input unchanged in that case. -/
theorem C2_phone_normalization_amended (phone : String) :
    update_customer_phone phone = spec_phone_norm_amended phone ∧
    (phone ≠ "" → normalize_phone phone = spec_phone_norm phone) := by
  constructor
  · rfl
  · intro h
    unfold normalize_phone spec_phone_norm
    rw [if_neg h]

/-- Witness for C2's amended theorem at the concrete input "555-123-4567". -/
theorem C2_phone_normalization_amended_witness :
    ("555-123-4567" : String) ≠ "" ∧
    update_customer_phone "555-123-4567" = spec_phone_norm_amended "555-123-4567" ∧
    normalize_phone "555-123-4567" = spec_phone_norm "555-123-4567" :=
  ⟨by decide, (C2_phone_normalization_amended "555-123-4567").1,
    (C2_phone_normalization_amended "555-123-4567").2 (by decide)⟩

/-- A complete reservation draft. -/
def reservation_commit_demo : UserData :=
  { customer_name := "Sam", customer_phone := "+15551234567",
    reservation_date := "2026-01-01", reservation_time := "18:00", party_size := 2 }

/-- C3: evaluation at the failing input.  With a complete reservation draft
and the store reporting commit failure (save_reservation returns False),
`confirm_reservation` still returns the success message, not the apology:
the tool never reads the boolean the store uses to report failure. -/
theorem C3_commit_failure_eval :
    (confirm_reservation reservation_commit_demo false).reply = reservation_success_msg ∧
    (confirm_reservation reservation_commit_demo false).reply ≠ commit_failure_apology_msg ∧
    (confirm_reservation reservation_commit_demo false).commitAttempted = true := by
  refine ⟨by decide, by decide, by decide⟩

/-- C4: in the Confirmation role, confirm-order with a missing phone (or
name, or empty draft order) returns the refusal advisory, attempts no store
commit, leaves the session state unchanged, and the active role stays
Confirmation. -/
theorem C4_confirm_order_incomplete (s : UserData) (store_commit_ok : Bool)
    (h : s.customer_phone = "" ∨ s.customer_name = "" ∨ s.current_order = []) :
    confirm_order s store_commit_ok =
      { reply := missing_order_info_msg, state := s,
        commitAttempted := false, next := none } ∧
    apply_outcome RoleTag.confirmation (confirm_order s store_commit_ok) =
      RoleTag.confirmation := by
  have hg : order_guard s = false := by
    rcases h with h | h | h <;> simp [order_guard, h]
  refine ⟨?_, ?_⟩ <;> simp [confirm_order, apply_outcome, hg]

/-- A session missing the phone but holding a name and one draft line. -/
def c4_demo : UserData := { customer_name := "Sam", current_order := [⟨"Coffee", 1⟩] }

/-- Witness for C4 at a concrete session missing only the phone. -/
theorem C4_confirm_order_incomplete_witness :
    (c4_demo.customer_phone = "" ∨ c4_demo.customer_name = "" ∨ c4_demo.current_order = []) ∧
    (confirm_order c4_demo true =
      { reply := missing_order_info_msg, state := c4_demo,
        commitAttempted := false, next := none } ∧
     apply_outcome RoleTag.confirmation (confirm_order c4_demo true) = RoleTag.confirmation) :=
  ⟨Or.inl rfl, C4_confirm_order_incomplete c4_demo true (Or.inl rfl)⟩

/-- C8 counterexample: set-reservation-fields with party size -1 on a fresh
session stores the -1 (a mutation) and returns None (a NoOp), not an
Advisory with no mutation as the claim requires. -/
theorem C8_counterexample :
    (set_reservation_details initialUserData "2026-01-01" "18:00" (-1)).1.party_size = -1 ∧
    initialUserData.party_size = 0 ∧
    (set_reservation_details initialUserData "2026-01-01" "18:00" (-1)).2 = none := by
  refine ⟨by decide, by decide, by decide⟩

/-- C8 amended: set-reservation-fields stores date, time and party size
unconditionally, even when the size is not positive; a non-positive size
merely suppresses the readiness advisory (the tool returns NoOp), and the
size > 0 requirement is enforced only by that readiness hint and by
confirm-reservation's commit-time guard. -/
theorem C8_set_reservation_amended (s : UserData) (d tm : String) (p : Int)
    (hp : p ≤ 0) :
    (set_reservation_details s d tm p).1 =
      { s with reservation_date := d, reservation_time := tm, party_size := p } ∧
    (set_reservation_details s d tm p).2 = none := by
  have hdec : decide (p > 0) = false := decide_eq_false (by omega)
  refine ⟨rfl, ?_⟩
  simp [set_reservation_details, reservation_ready_hint, reservation_guard, hdec]

/-- Witness for C8's amended theorem at party size -1 on a fresh session. -/
theorem C8_set_reservation_amended_witness :
    ((-1 : Int) ≤ 0) ∧
    ((set_reservation_details initialUserData "2026-01-01" "18:00" (-1)).1 =
      { initialUserData with reservation_date := "2026-01-01",
                             reservation_time := "18:00", party_size := -1 } ∧
     (set_reservation_details initialUserData "2026-01-01" "18:00" (-1)).2 = none) :=
  ⟨by decide, C8_set_reservation_amended initialUserData "2026-01-01" "18:00" (-1) (by decide)⟩

/-- A complete order draft: name, phone, and one draft line. -/
def order_commit_demo : UserData :=
  { customer_name := "Sam", customer_phone := "+15551234567",
    current_order := [⟨"Coffee", 2⟩] }

/-- C9: evaluation at the failing input.  At commit time the code passes
the literal unit price 0 for every line (no catalog is consulted), omits
the required `menu_item_name` argument so the `OrderItem` constructor call
raises, and `confirm_order` therefore returns the apology without ever
committing — a committed order reflecting catalog prices is impossible. -/
theorem C9_commit_price_eval :
    (confirm_order_item_kwargs ⟨"Coffee", 2⟩).unit_price = some 0 ∧
    (confirm_order_item_kwargs ⟨"Coffee", 2⟩).menu_item_name = none ∧
    confirm_order_items [⟨"Coffee", 2⟩] = none ∧
    (confirm_order order_commit_demo true).reply = commit_failure_apology_msg ∧
    (confirm_order order_commit_demo true).commitAttempted = false := by
  refine ⟨by decide, by decide, by decide, by decide, by decide⟩

/-- Head test for the truncated window: true when the list opens with a
tool-call / tool-result entry. -/
def head_is_tool : List ChatItem → Bool
  | [] => false
  | x :: _ => is_tool_artifact x

/-- After dropping the leading tool artifacts, the head (if any) is not a
tool artifact. -/
theorem head_is_tool_dropWhile (l : List ChatItem) :
    head_is_tool (l.dropWhile is_tool_artifact) = false := by
  induction l with
  | nil => rfl
  | cons x xs ih =>
    rw [List.dropWhile_cons]
    by_cases h : is_tool_artifact x = true
    · simp only [h, if_true]
      exact ih
    · simp only [h, if_false]
      simpa [head_is_tool] using Bool.not_eq_true _ ▸ h

/-- C5: for every transcript and every combination of the keep-last /
keep-system / keep-tool-artifacts parameters, the first entry of the list
`truncate_chat_ctx` returns is never a tool-call or tool-result entry (the
leading ones are dropped, possibly leaving the output empty). -/
theorem C5_truncate_head_never_tool (items : List ChatItem) (keep_last_n : Nat)
    (keep_system keep_tool : Bool) :
    head_is_tool (truncate_chat_ctx items keep_last_n keep_system keep_tool) = false := by
  unfold truncate_chat_ctx
  exact head_is_tool_dropWhile _

/-- When every scanned entry passes the filter, the backward scan collects
exactly the next `n - acc.length` entries. -/
theorem truncate_scan_all_valid (ks kf : Bool) (n : Nat) (l : List ChatItem) :
    ∀ acc : List ChatItem, (∀ x ∈ l, valid_item ks kf x = true) →
      acc.length < n →
      truncate_scan ks kf n l acc = acc ++ l.take (n - acc.length) := by
  induction l with
  | nil =>
    intro acc _ _
    simp [truncate_scan]
  | cons x xs ih =>
    intro acc hval hlt
    have hx : valid_item ks kf x = true := hval x (List.mem_cons_self _ _)
    rw [truncate_scan]
    simp only [hx, if_true]
    by_cases hn : n ≤ (acc ++ [x]).length
    · rw [if_pos hn]
      have hn1 : n = acc.length + 1 := by
        simp only [List.length_append, List.length_singleton] at hn
        omega
      obtain ⟨hk⟩ : n - acc.length = 1 ∧ True := ⟨by omega, trivial⟩
      rw [hk, List.take_succ_cons, List.take_zero]
    · rw [if_neg hn]
      have hlen : (acc ++ [x]).length = acc.length + 1 := by
        simp [List.length_append]
      have hlt2 : (acc ++ [x]).length < n := by
        simp only [List.length_append, List.length_singleton] at hn ⊢
        omega
      rw [ih (acc ++ [x]) (fun y hy => hval y (List.mem_cons_of_mem _ hy)) hlt2]
      have hk : n - acc.length = (n - (acc ++ [x]).length) + 1 := by
        rw [hlen]; omega
      rw [hk, List.take_succ_cons, List.append_assoc]
      rfl

/-- C6: on a transcript of 10 plain message entries (no system messages, no
tool artifacts), truncation with keep-last 6 returns exactly the 6 most
recent entries in their original relative order. -/
theorem C6_truncate_ten_plain (l : List ChatItem)
    (hlen : l.length = 10)
    (hplain : l.all (fun x => x.itemType == "message" && x.role != "system") = true) :
    truncate_chat_ctx l 6 false false = l.drop 4 := by
  have hplain' : ∀ x ∈ l, x.itemType = "message" ∧ x.role ≠ "system" := by
    intro x hx
    have hb := List.all_eq_true.mp hplain x hx
    rw [Bool.and_eq_true, beq_iff_eq, bne_iff_ne] at hb
    exact hb
  have hval : ∀ x ∈ l.reverse, valid_item false false x = true := by
    intro x hx
    obtain ⟨h1, h2⟩ := hplain' x (List.mem_reverse.mp hx)
    simp [valid_item, h1, h2]
  have hscan := truncate_scan_all_valid false false 6 l.reverse [] hval (by simp)
  unfold truncate_chat_ctx
  rw [hscan]
  simp only [List.nil_append, List.length_nil, Nat.sub_zero]
  have hrev : (l.reverse.take 6).reverse = l.drop 4 := by
    rw [List.take_reverse, List.reverse_reverse, hlen]
  rw [hrev]
  cases hd : l.drop 4 with
  | nil => rfl
  | cons a rest =>
    have ha : a ∈ l := List.drop_subset 4 l (by rw [hd]; exact List.mem_cons_self _ _)
    have hnt : is_tool_artifact a = false := by
      obtain ⟨h1, _⟩ := hplain' a ha
      simp [is_tool_artifact, h1]
    rw [List.dropWhile_cons]
    simp [hnt]

/-- A concrete transcript of ten plain user/assistant messages. -/
def demo_transcript : List ChatItem :=
  [⟨"m1", "message", "user", "u1"⟩, ⟨"m2", "message", "assistant", "a1"⟩,
   ⟨"m3", "message", "user", "u2"⟩, ⟨"m4", "message", "assistant", "a2"⟩,
   ⟨"m5", "message", "user", "u3"⟩, ⟨"m6", "message", "assistant", "a3"⟩,
   ⟨"m7", "message", "user", "u4"⟩, ⟨"m8", "message", "assistant", "a4"⟩,
   ⟨"m9", "message", "user", "u5"⟩, ⟨"m10", "message", "assistant", "a5"⟩]

/-- Witness for C6 on the concrete ten-message transcript. -/
theorem C6_truncate_ten_plain_witness :
    demo_transcript.length = 10 ∧
    demo_transcript.all (fun x => x.itemType == "message" && x.role != "system") = true ∧
    truncate_chat_ctx demo_transcript 6 false false = demo_transcript.drop 4 :=
  ⟨by decide, by decide, C6_truncate_ten_plain demo_transcript (by decide) (by decide)⟩

/-- Two transcript entries sharing the identity "1". -/
def dup_entry_a : ChatItem := ⟨"1", "message", "user", "a"⟩

/-- Second entry with the same identity "1". -/
def dup_entry_b : ChatItem := ⟨"1", "message", "user", "b"⟩

/-- C7 counterexample: merging a source that repeats an identity into an
empty target appends both copies (the absence filter only consults the
target), so the merged result does contain duplicate identities, contrary
to the claim. -/
theorem C7_counterexample :
    ¬ (((merge_ctx [] [dup_entry_a, dup_entry_b]).map ChatItem.id).Nodup) := by
  decide

/-- C7 amended: merge appends exactly the source entries whose identity is
absent from the target, in source order, leaving the target prefix
unchanged; and provided the target's identities and the source's
identities are each duplicate-free, the merged result contains no
duplicate identities. -/
theorem C7_merge_amended (target source : List ChatItem) :
    (merge_ctx target source).take target.length = target ∧
    (merge_ctx target source).drop target.length =
      source.filter (fun it => !((target.map ChatItem.id).contains it.id)) ∧
    ((target.map ChatItem.id).Nodup → (source.map ChatItem.id).Nodup →
      ((merge_ctx target source).map ChatItem.id).Nodup) := by
  refine ⟨List.take_left _ _, List.drop_left _ _, ?_⟩
  intro ht hs
  unfold merge_ctx
  rw [List.map_append]
  refine List.Nodup.append ht ?_ ?_
  · exact List.Nodup.sublist (List.Sublist.map _ (List.filter_sublist _)) hs
  · intro a hat haf
    obtain ⟨x, hxmem, hxid⟩ := List.mem_map.mp haf
    have hp := (List.mem_filter.mp hxmem).2
    rw [Bool.not_eq_true', List.contains_eq_any_beq] at hp
    have : (target.map ChatItem.id).any (x.id == ·) = true := by
      rw [List.any_eq_true]
      exact ⟨a, hat, by rw [hxid]; exact beq_self_eq_true a⟩
    rw [this] at hp
    exact absurd hp (by decide)

/-- A plain transcript entry with identity "a". -/
def plain_entry_a : ChatItem := ⟨"a", "message", "user", "hello"⟩

/-- A plain transcript entry with identity "b". -/
def plain_entry_b : ChatItem := ⟨"b", "message", "assistant", "hi"⟩

/-- Witness for C7's amended theorem: the unconditional clauses at concrete
contexts, and the no-duplicates clause with its duplicate-free hypotheses
discharged at the same concrete input. -/
theorem C7_merge_amended_witness :
    (([plain_entry_a].map ChatItem.id).Nodup) ∧
    (([plain_entry_a, plain_entry_b].map ChatItem.id).Nodup) ∧
    (merge_ctx [plain_entry_a] [plain_entry_a, plain_entry_b]).take
        ([plain_entry_a] : List ChatItem).length = [plain_entry_a] ∧
    (merge_ctx [plain_entry_a] [plain_entry_a, plain_entry_b]).drop
        ([plain_entry_a] : List ChatItem).length =
      [plain_entry_a, plain_entry_b].filter
        (fun it => !((([plain_entry_a] : List ChatItem).map ChatItem.id).contains it.id)) ∧
    ((merge_ctx [plain_entry_a] [plain_entry_a, plain_entry_b]).map ChatItem.id).Nodup :=
  ⟨by decide, by decide,
    (C7_merge_amended [plain_entry_a] [plain_entry_a, plain_entry_b]).1,
    (C7_merge_amended [plain_entry_a] [plain_entry_a, plain_entry_b]).2.1,
    (C7_merge_amended [plain_entry_a] [plain_entry_a, plain_entry_b]).2.2 (by decide) (by decide)⟩

/-- C10: the correction tool is not total over its public interface — for
the allowlisted field "party_size" a new value rejected by Python's int()
makes the tool raise (modelled as `none`); every other allowlisted field
stores the new value verbatim and returns the confirmation advisory; any
other field name mutates nothing and returns the advisory listing the
correctable fields. -/
theorem C10_request_correction_totality (s : UserData) (fld v : String) :
    (fld = "party_size" → py_int v = none → request_correction s fld v = none) ∧
    (fld = "name" → request_correction s fld v =
      some ({ s with customer_name := v }, correction_ok_msg v)) ∧
    (fld = "phone" → request_correction s fld v =
      some ({ s with customer_phone := v }, correction_ok_msg v)) ∧
    (fld = "email" → request_correction s fld v =
      some ({ s with customer_email := v }, correction_ok_msg v)) ∧
    (fld = "date" → request_correction s fld v =
      some ({ s with reservation_date := v }, correction_ok_msg v)) ∧
    (fld = "time" → request_correction s fld v =
      some ({ s with reservation_time := v }, correction_ok_msg v)) ∧
    (fld ∉ (["name", "phone", "email", "date", "time", "party_size"] : List String) →
      request_correction s fld v = some (s, correction_menu_msg)) := by
  refine ⟨?_, ?_, ?_, ?_, ?_, ?_, ?_⟩
  · intro hf hv
    subst hf
    unfold request_correction
    rw [if_neg (by decide), if_neg (by decide), if_neg (by decide),
      if_neg (by decide), if_neg (by decide), if_pos rfl, hv]
  · intro hf
    subst hf
    unfold request_correction
    rw [if_pos rfl]
  · intro hf
    subst hf
    unfold request_correction
    rw [if_neg (by decide), if_pos rfl]
  · intro hf
    subst hf
    unfold request_correction
    rw [if_neg (by decide), if_neg (by decide), if_pos rfl]
  · intro hf
    subst hf
    unfold request_correction
    rw [if_neg (by decide), if_neg (by decide), if_neg (by decide), if_pos rfl]
  · intro hf
    subst hf
    unfold request_correction
    rw [if_neg (by decide), if_neg (by decide), if_neg (by decide),
      if_neg (by decide), if_pos rfl]
  · intro hf
    simp only [List.mem_cons, List.not_mem_nil, or_false, not_or] at hf
    obtain ⟨h1, h2, h3, h4, h5, h6⟩ := hf
    unfold request_correction
    rw [if_neg h1, if_neg h2, if_neg h3, if_neg h4, if_neg h5, if_neg h6]

/-- Witness for C10 at the concrete inputs ("party_size", "abc") and
("address", "x"). -/
theorem C10_request_correction_totality_witness :
    py_int "abc" = none ∧
    request_correction initialUserData "party_size" "abc" = none ∧
    (("address" : String) ∉ (["name", "phone", "email", "date", "time", "party_size"] : List String)) ∧
    request_correction initialUserData "address" "x" = some (initialUserData, correction_menu_msg) :=
  ⟨by decide,
    (C10_request_correction_totality initialUserData "party_size" "abc").1 rfl (by decide),
    by decide,
    (C10_request_correction_totality initialUserData "address" "x").2.2.2.2.2.2 (by decide)⟩
